import Mathlib

/-!
Verification of `scripts/spreads_adjusted_on_volatility_script.py`
(class `SpreadsAdjustedOnVolatility`, a hummingbot script).

The script is embedded shallowly:

* Python `Decimal` values are modelled as `ℚ`.  All the `Decimal`
  arithmetic the script performs (addition, subtraction, `max`,
  multiplication by small step constants) is exact at the 28-digit
  default precision for the magnitudes involved, so it coincides with
  exact rational arithmetic.
* The host-provided volatility queries `avg_price_volatility` and
  `median_price_volatility` are inputs of a tick: they return `none`
  until enough samples have accumulated and a fractional value
  afterwards, so each tick carries two `Option ℚ` inputs.
* The Sydney wall-clock reading (`datetime.now(tz_syd)`) is likewise an
  input of the tick: the parsed hour (`int(strftime("%H"))`) and the
  formatted timestamp string used in the log line.
* The mutable state of the script object (`ticks`, `hour_of_day`, the
  captured original spreads, the host-owned `pmm_parameters` object) is a
  structure, and `on_tick` is a state transformer.
* The append-only log file is a `List String`, one element per line
  written by `log_to_file` (each call appends `message + "\n"`, i.e.
  exactly one line).  Notifications sent with `notify` are collected in
  an outbound `List String`.
* The host's parameter object has further fields beside `bid_spread` and
  `ask_spread`; they are opaque to this script and modelled by a type
  parameter `α` in the field `others`.
-/

namespace SpreadsVolatility

/-- The host-owned `pmm_parameters` object: `bid_spread` and `ask_spread`
are the two fields the script reads and writes; all other fields of the
object are bundled opaquely in `others`. -/
structure PMMParameters (α : Type) where
  bid_spread : ℚ
  ask_spread : ℚ
  others : α
deriving Repr, DecidableEq

/-- The per-tick external inputs: the two host volatility queries (absent
until enough samples exist) and the Sydney wall clock (parsed hour and
the `%Y-%m-%d %H:%M:%S` timestamp string used in the log line). -/
structure TickInput where
  avg_short_volatility : Option ℚ
  median_long_volatility : Option ℚ
  hour_syd : ℕ
  now_syd : String
deriving Repr, DecidableEq

/-- The state of the `SpreadsAdjustedOnVolatility` object together with
the world it mutates: the host parameter object, the append-only log
file (one list element per written line) and the outbound notifications. -/
structure ScriptState (α : Type) where
  ticks : ℕ
  hour_of_day : ℕ
  original_bid_spread : Option ℚ
  original_ask_spread : Option ℚ
  pmm_parameters : PMMParameters α
  log_file : List String
  notifications : List String
deriving Repr, DecidableEq

/-- Class attribute `interval = 10`. -/
def interval : ℕ := 10

/-- Class attribute `short_period = 5`. -/
def short_period : ℕ := 5

/-- Class attribute `long_period = 900`. -/
def long_period : ℕ := 900

/-- Modelled from the spec: `ScriptBase.round_by_step` is declared in
`hummingbot/script/script_base.py`, which is not part of the sources at
hand; the spec describes the operation as rounding the delta "to nearest
0.25% step", so the step rounding is modelled as rounding to the nearest
integer multiple of `step`. -/
def round_by_step (a_number : ℚ) (step : ℚ) : ℚ :=
  (round (a_number / step) : ℤ) * step

/-- The overnight widening used by `on_tick`: `Decimal("0.0020")` when
`hour_of_day > 21 or hour_of_day < 8` (Sydney time), the initial
`Decimal("0.0000")` otherwise. -/
def overnight_adjustment (hour_of_day : ℕ) : ℚ :=
  if hour_of_day > 21 ∨ hour_of_day < 8 then 0.0020 else 0.0000

/-- The first statements of `on_tick`: if `original_bid_spread is None`,
record both current spreads of `pmm_parameters` as the originals. -/
def captureOriginals (s : ScriptState α) : ScriptState α :=
  if s.original_bid_spread = none then
    { s with
      original_bid_spread := some s.pmm_parameters.bid_spread
      original_ask_spread := some s.pmm_parameters.ask_spread }
  else s

/-- Fixed-point rendering of a nonnegative integer `m` scaled by
`10 ^ dp`: digits of `m / 10 ^ dp`, a dot, then the last `dp` digits of
`m` padded with leading zeros (the shape Python's `.Nf` format emits). -/
def fixedDigits (dp : ℕ) (m : ℕ) : String :=
  let frac := toString (m % 10 ^ dp)
  toString (m / 10 ^ dp) ++ "." ++
    String.mk (List.replicate (dp - frac.length) '0') ++ frac

/-- Round-half-even at integer precision, the rounding Python's `Decimal`
formatting applies to the coefficient. -/
def roundHalfEven (x : ℚ) : ℤ :=
  if x - ⌊x⌋ < 1 / 2 then ⌊x⌋
  else if 1 / 2 < x - ⌊x⌋ then ⌊x⌋ + 1
  else if Even ⌊x⌋ then ⌊x⌋ else ⌊x⌋ + 1

/-- Python's `'{:+.dp f}'.format(q)` on a `Decimal` value: an explicit
sign, then the magnitude rendered with `dp` fractional digits, the
coefficient rounded half-even. -/
def formatPlusFixed (dp : ℕ) (q : ℚ) : String :=
  (if q < 0 then "-" else "+") ++
    fixedDigits dp (roundHalfEven (|q| * (10 : ℚ) ^ dp)).toNat

/-- The f-string written by the logging statement at the end of
`on_tick`. -/
def log_message (now_syd : String) (avg_short_volatility : ℚ)
    (median_long_volatility : ℚ) (spread_adjustment : ℚ)
    (overnight_spread_adjustment : ℚ) (new_bid_spread : ℚ)
    (new_ask_spread : ℚ) : String :=
  now_syd ++ "   " ++
    "avg_short_vol: " ++ formatPlusFixed 5 avg_short_volatility ++ "   " ++
    "median_long_vol: " ++ formatPlusFixed 7 median_long_volatility ++ "   " ++
    "spread adj: " ++ formatPlusFixed 4 spread_adjustment ++ "   " ++
    "overnight spread adj: " ++ formatPlusFixed 4 overnight_spread_adjustment ++ "   " ++
    "new bid: " ++ formatPlusFixed 4 new_bid_spread ++ "   " ++
    "new ask: " ++ formatPlusFixed 4 new_ask_spread ++ "   "

/-- Method `log_to_file`: opens `logs/logs_script_out.txt` in append mode and
writes `message + "\n"` — exactly one new line at the end of the file. -/
def log_to_file (s : ScriptState α) (message : String) : ScriptState α :=
  { s with log_file := s.log_file ++ [message] }

/-- Modelled from the spec: `ScriptBase.notify` is not part of the
sources at hand; it sends a message to the host for display, modelled as
appending the message to an outbound list. -/
def notify (s : ScriptState α) (message : String) : ScriptState α :=
  { s with notifications := s.notifications ++ [message] }

/-- Method `SpreadsAdjustedOnVolatility.on_tick`, line by line.  The final
match arm is unreachable when the volatilities are present: the capture
step has made both originals `some` (in Python they can never be `None`
past the first statements). -/
def on_tick (inp : TickInput) (s₀ : ScriptState α) : ScriptState α :=
  -- First, let's keep the original spreads.
  let s₁ := captureOriginals s₀
  let avg_short_volatility := inp.avg_short_volatility
  let median_long_volatility := inp.median_long_volatility
  let s₂ := { s₁ with ticks := s₁.ticks + 1 }
  match avg_short_volatility, median_long_volatility,
      s₂.original_bid_spread, s₂.original_ask_spread with
  | some avg, some med, some ob, some oa =>
    if s₂.ticks = interval * long_period + 1 then
      notify s₂ ("finished calculating averages : " ++ toString s₂.ticks ++ " ")
    else
      let delta := avg - med
      let spread_adjustment := round_by_step delta 0.0025
      let s₃ := { s₂ with hour_of_day := inp.hour_syd }
      let overnight_spread_adjustment := overnight_adjustment s₃.hour_of_day
      let new_bid_spread := ob + spread_adjustment + overnight_spread_adjustment
      let new_ask_spread := oa + spread_adjustment + overnight_spread_adjustment
      let s₄ := { s₃ with
        pmm_parameters := { s₃.pmm_parameters with
          bid_spread := max ob new_bid_spread
          ask_spread := max oa new_ask_spread } }
      -- No need to write to file if there is no adjustments
      if new_bid_spread = ob then s₄
      else
        log_to_file s₄ (log_message inp.now_syd avg med spread_adjustment
          overnight_spread_adjustment new_bid_spread new_ask_spread)
  | _, _, _, _ => s₂

/-- Method `on_status`: returns the diagnostic string; the pair records that the
object state is untouched. -/
def on_status (s : ScriptState α) : String × ScriptState α :=
  ("hour of day / ticks since start : " ++ toString s.hour_of_day ++
    " + " ++ toString s.ticks, s)

/-- Repeated invocation of `on_tick` over a list of tick inputs. -/
def run_ticks (inps : List TickInput) (s : ScriptState α) : ScriptState α :=
  inps.foldl (fun s inp => on_tick inp s) s

end SpreadsVolatility

namespace SpreadsVolatility

/-! ### Structural lemmas about the capture step -/

@[simp]
theorem captureOriginals_ticks (s : ScriptState α) :
    (captureOriginals s).ticks = s.ticks := by
  unfold captureOriginals; split <;> rfl

@[simp]
theorem captureOriginals_hour (s : ScriptState α) :
    (captureOriginals s).hour_of_day = s.hour_of_day := by
  unfold captureOriginals; split <;> rfl

@[simp]
theorem captureOriginals_pmm (s : ScriptState α) :
    (captureOriginals s).pmm_parameters = s.pmm_parameters := by
  unfold captureOriginals; split <;> rfl

@[simp]
theorem captureOriginals_log (s : ScriptState α) :
    (captureOriginals s).log_file = s.log_file := by
  unfold captureOriginals; split <;> rfl

@[simp]
theorem captureOriginals_notifications (s : ScriptState α) :
    (captureOriginals s).notifications = s.notifications := by
  unfold captureOriginals; split <;> rfl

theorem captureOriginals_of_some (s : ScriptState α) (h : s.original_bid_spread ≠ none) :
    captureOriginals s = s := by
  unfold captureOriginals; exact if_neg h

theorem captureOriginals_of_none (s : ScriptState α) (h : s.original_bid_spread = none) :
    captureOriginals s =
      { s with
        original_bid_spread := some s.pmm_parameters.bid_spread
        original_ask_spread := some s.pmm_parameters.ask_spread } := by
  unfold captureOriginals; exact if_pos h

/-! ### Branch characterizations of `on_tick` -/

/-- When either volatility query is absent, `on_tick` only captures the
originals (on the first call) and increments the tick counter. -/
theorem on_tick_absent (inp : TickInput) (s : ScriptState α)
    (h : inp.avg_short_volatility = none ∨ inp.median_long_volatility = none) :
    on_tick inp s = { captureOriginals s with ticks := s.ticks + 1 } := by
  unfold on_tick
  rcases hav : inp.avg_short_volatility with _ | avg <;>
    rcases hmed : inp.median_long_volatility with _ | med <;>
      rcases hob : (captureOriginals s).original_bid_spread with _ | ob <;>
        rcases hoa : (captureOriginals s).original_ask_spread with _ | oa <;>
          simp_all

/-- On the tick where the incremented counter reaches
`interval * long_period + 1`, `on_tick` only notifies. -/
theorem on_tick_notify (inp : TickInput) (s : ScriptState α) (avg med ob oa : ℚ)
    (hav : inp.avg_short_volatility = some avg)
    (hmed : inp.median_long_volatility = some med)
    (hob : (captureOriginals s).original_bid_spread = some ob)
    (hoa : (captureOriginals s).original_ask_spread = some oa)
    (hticks : s.ticks + 1 = interval * long_period + 1) :
    on_tick inp s =
      notify { captureOriginals s with ticks := s.ticks + 1 }
        ("finished calculating averages : " ++ toString (s.ticks + 1) ++ " ") := by
  unfold on_tick
  simp only [hav, hmed, captureOriginals_ticks, hob, hoa]
  rw [if_pos hticks]

/-- The write branch of `on_tick`: both volatilities present and not the
completion tick.  The resulting state, field by field. -/
theorem on_tick_write (inp : TickInput) (s : ScriptState α) (avg med ob oa : ℚ)
    (hav : inp.avg_short_volatility = some avg)
    (hmed : inp.median_long_volatility = some med)
    (hob : (captureOriginals s).original_bid_spread = some ob)
    (hoa : (captureOriginals s).original_ask_spread = some oa)
    (hticks : s.ticks + 1 ≠ interval * long_period + 1) :
    on_tick inp s =
      { ticks := s.ticks + 1
        hour_of_day := inp.hour_syd
        original_bid_spread := some ob
        original_ask_spread := some oa
        pmm_parameters :=
          { bid_spread := max ob (ob + round_by_step (avg - med) 0.0025 +
              overnight_adjustment inp.hour_syd)
            ask_spread := max oa (oa + round_by_step (avg - med) 0.0025 +
              overnight_adjustment inp.hour_syd)
            others := s.pmm_parameters.others }
        log_file :=
          if ob + round_by_step (avg - med) 0.0025 + overnight_adjustment inp.hour_syd = ob
          then s.log_file
          else s.log_file ++ [log_message inp.now_syd avg med
            (round_by_step (avg - med) 0.0025) (overnight_adjustment inp.hour_syd)
            (ob + round_by_step (avg - med) 0.0025 + overnight_adjustment inp.hour_syd)
            (oa + round_by_step (avg - med) 0.0025 + overnight_adjustment inp.hour_syd)]
        notifications := s.notifications } := by
  unfold on_tick
  simp only [hav, hmed, captureOriginals_ticks, hob, hoa]
  rw [if_neg hticks]
  unfold log_to_file
  split <;> simp_all

end SpreadsVolatility

namespace SpreadsVolatility

/-! ### The claims -/

/-- C1: on every tick where both volatility queries return a value and
the incremented tick counter is not `interval * long_period + 1`,
`on_tick` sets `bid_spread` to
`max original_bid (original_bid + round_by_step (avg - med) 0.0025 + overnight)`
and `ask_spread` to the analogous expression over the original ask
spread, where `overnight` is `0.0020` during Sydney night hours and `0`
otherwise. -/
theorem c1_on_tick_sets_clamped_spreads (inp : TickInput) (s : ScriptState α)
    (avg med ob oa : ℚ)
    (hav : inp.avg_short_volatility = some avg)
    (hmed : inp.median_long_volatility = some med)
    (hob : (captureOriginals s).original_bid_spread = some ob)
    (hoa : (captureOriginals s).original_ask_spread = some oa)
    (hticks : s.ticks + 1 ≠ interval * long_period + 1) :
    (on_tick inp s).pmm_parameters.bid_spread =
      max ob (ob + round_by_step (avg - med) 0.0025 +
        overnight_adjustment inp.hour_syd) ∧
    (on_tick inp s).pmm_parameters.ask_spread =
      max oa (oa + round_by_step (avg - med) 0.0025 +
        overnight_adjustment inp.hour_syd) := by
  rw [on_tick_write inp s avg med ob oa hav hmed hob hoa hticks]
  exact ⟨rfl, rfl⟩

/-- Closed instance of `c1_on_tick_sets_clamped_spreads` at a concrete
fresh state and tick input. -/
theorem c1_witness :
    (on_tick ⟨some 0.03, some 0.01, 23, "t"⟩
        (⟨0, 0, none, none, ⟨0.01, 0.02, ()⟩, [], []⟩ : ScriptState Unit)
      ).pmm_parameters.bid_spread =
      max 0.01 (0.01 + round_by_step ((0.03 : ℚ) - 0.01) 0.0025 +
        overnight_adjustment 23) := by
  have h := c1_on_tick_sets_clamped_spreads
    (⟨some 0.03, some 0.01, 23, "t"⟩ : TickInput)
    (⟨0, 0, none, none, ⟨0.01, 0.02, ()⟩, [], []⟩ : ScriptState Unit)
    0.03 0.01 0.01 0.02 rfl rfl rfl rfl (by decide)
  exact h.1

/-- C2: the spread adjustment is the volatility delta rounded to the
nearest integer multiple of `0.0025`: it is an exact multiple of the
step, and no other multiple of the step is closer to the delta. -/
theorem c2_adjustment_nearest_step (delta : ℚ) :
    (∃ k : ℤ, round_by_step delta 0.0025 = (k : ℚ) * 0.0025) ∧
    (∀ m : ℤ, |round_by_step delta 0.0025 - delta| ≤ |(m : ℚ) * 0.0025 - delta|) := by
  constructor
  · exact ⟨round (delta / 0.0025), rfl⟩
  · intro m
    have hround := round_le (delta / 0.0025) m
    have e1 : round_by_step delta 0.0025 - delta =
        (delta / 0.0025 - (round (delta / 0.0025) : ℚ)) * (-0.0025) := by
      rw [round_by_step]
      field_simp
      ring
    have e2 : (m : ℚ) * 0.0025 - delta = (delta / 0.0025 - (m : ℚ)) * (-0.0025) := by
      field_simp
      ring
    rw [e1, e2, abs_mul, abs_mul]
    exact mul_le_mul_of_nonneg_right hround (abs_nonneg _)

/-- C3: the overnight adjustment is exactly `0.0020` when the Sydney
hour of day is strictly below 8 or strictly above 21, and exactly `0`
for hours between 8 and 21 inclusive. -/
theorem c3_overnight_adjustment_value (h : ℕ) :
    ((h < 8 ∨ 21 < h) → overnight_adjustment h = 0.0020) ∧
    (8 ≤ h → h ≤ 21 → overnight_adjustment h = 0.0000) := by
  unfold overnight_adjustment
  refine ⟨fun hh => if_pos (hh.symm.imp id id), fun h1 h2 => if_neg ?_⟩
  rintro (h3 | h3) <;> omega

/-- Closed instance of `c3_overnight_adjustment_value` at hours 23 and 12. -/
theorem c3_witness :
    overnight_adjustment 23 = 0.0020 ∧ overnight_adjustment 12 = 0.0000 :=
  ⟨(c3_overnight_adjustment_value 23).1 (Or.inr (by decide)),
   (c3_overnight_adjustment_value 12).2 (by decide) (by decide)⟩

/-- C7: `on_tick` writes only the `bid_spread` and `ask_spread` fields
of the host-owned parameter object; all its other fields (the opaque
`others` component, covering every remaining field) are unchanged. -/
theorem c7_only_spreads_written (inp : TickInput) (s : ScriptState α) :
    (on_tick inp s).pmm_parameters.others = s.pmm_parameters.others := by
  unfold on_tick
  rcases hav : inp.avg_short_volatility with _ | avg <;>
    rcases hmed : inp.median_long_volatility with _ | med <;>
      rcases hob : (captureOriginals s).original_bid_spread with _ | ob <;>
        rcases hoa : (captureOriginals s).original_ask_spread with _ | oa <;>
          simp only [hav, hmed, hob, hoa] <;>
            first
              | (split_ifs <;> simp [notify, log_to_file])
              | simp [notify, log_to_file]

/-- C8: `on_status` returns the diagnostic string built from the last
recorded hour of day and the tick count, and leaves the state untouched. -/
theorem c8_on_status (s : ScriptState α) :
    on_status s =
      ("hour of day / ticks since start : " ++ toString s.hour_of_day ++
        " + " ++ toString s.ticks, s) :=
  rfl

end SpreadsVolatility

namespace SpreadsVolatility

@[simp]
theorem run_ticks_nil (s : ScriptState α) : run_ticks [] s = s := rfl

@[simp]
theorem run_ticks_cons (inp : TickInput) (inps : List TickInput) (s : ScriptState α) :
    run_ticks (inp :: inps) s = run_ticks inps (on_tick inp s) := rfl

/-- One invocation preserves the originals and keeps the spreads at or
above them. -/
theorem on_tick_floor (inp : TickInput) (s : ScriptState α) (b a : ℚ)
    (hb : (captureOriginals s).original_bid_spread = some b)
    (ha : (captureOriginals s).original_ask_spread = some a)
    (hbid : b ≤ s.pmm_parameters.bid_spread)
    (hask : a ≤ s.pmm_parameters.ask_spread) :
    (on_tick inp s).original_bid_spread = some b ∧
    (on_tick inp s).original_ask_spread = some a ∧
    b ≤ (on_tick inp s).pmm_parameters.bid_spread ∧
    a ≤ (on_tick inp s).pmm_parameters.ask_spread := by
  rcases hav : inp.avg_short_volatility with _ | avg
  · rw [on_tick_absent inp s (Or.inl hav)]
    exact ⟨hb, ha, by simpa using hbid, by simpa using hask⟩
  rcases hmed : inp.median_long_volatility with _ | med
  · rw [on_tick_absent inp s (Or.inr hmed)]
    exact ⟨hb, ha, by simpa using hbid, by simpa using hask⟩
  by_cases hticks : s.ticks + 1 = interval * long_period + 1
  · rw [on_tick_notify inp s avg med b a hav hmed hb ha hticks]
    exact ⟨hb, ha, by simpa [notify] using hbid, by simpa [notify] using hask⟩
  · rw [on_tick_write inp s avg med b a hav hmed hb ha hticks]
    exact ⟨rfl, rfl, le_max_left _ _, le_max_left _ _⟩

/-- The invariant of `on_tick_floor` carried along any run. -/
theorem run_ticks_floor (inps : List TickInput) (s : ScriptState α) (b a : ℚ)
    (hb : s.original_bid_spread = some b)
    (ha : s.original_ask_spread = some a)
    (hbid : b ≤ s.pmm_parameters.bid_spread)
    (hask : a ≤ s.pmm_parameters.ask_spread) :
    (run_ticks inps s).original_bid_spread = some b ∧
    (run_ticks inps s).original_ask_spread = some a ∧
    b ≤ (run_ticks inps s).pmm_parameters.bid_spread ∧
    a ≤ (run_ticks inps s).pmm_parameters.ask_spread := by
  induction inps generalizing s with
  | nil => exact ⟨hb, ha, hbid, hask⟩
  | cons inp rest ih =>
    have hcs : captureOriginals s = s := captureOriginals_of_some s (by simp [hb])
    have step := on_tick_floor inp s b a (by rw [hcs]; exact hb) (by rw [hcs]; exact ha)
      hbid hask
    rw [run_ticks_cons]
    exact ih (on_tick inp s) step.1 step.2.1 step.2.2.1 step.2.2.2

/-- C4: starting from a fresh component state, after the first tick and
any further sequence of ticks, the stored originals are the spreads seen
on the first tick and the parameter object's spreads never drop below
them. -/
theorem c4_spreads_never_below_originals (inp0 : TickInput) (inps : List TickInput)
    (s0 : ScriptState α) (h0 : s0.original_bid_spread = none) :
    (run_ticks inps (on_tick inp0 s0)).original_bid_spread =
      some s0.pmm_parameters.bid_spread ∧
    (run_ticks inps (on_tick inp0 s0)).original_ask_spread =
      some s0.pmm_parameters.ask_spread ∧
    s0.pmm_parameters.bid_spread ≤
      (run_ticks inps (on_tick inp0 s0)).pmm_parameters.bid_spread ∧
    s0.pmm_parameters.ask_spread ≤
      (run_ticks inps (on_tick inp0 s0)).pmm_parameters.ask_spread := by
  have hc := captureOriginals_of_none s0 h0
  have step := on_tick_floor inp0 s0 s0.pmm_parameters.bid_spread s0.pmm_parameters.ask_spread
    (by rw [hc]) (by rw [hc]) le_rfl le_rfl
  exact run_ticks_floor inps (on_tick inp0 s0) _ _ step.1 step.2.1 step.2.2.1 step.2.2.2

/-- Closed instance of `c4_spreads_never_below_originals`: one tick with
a strongly negative delta followed by an absent-statistics tick. -/
theorem c4_witness :
    (run_ticks [⟨none, none, 4, "u"⟩]
        (on_tick (⟨some 0.001, some 0.05, 12, "t"⟩ : TickInput)
          (⟨0, 0, none, none, ⟨0.02, 0.03, ()⟩, [], []⟩ : ScriptState Unit))
      ).original_bid_spread = some 0.02 ∧
    (run_ticks [⟨none, none, 4, "u"⟩]
        (on_tick (⟨some 0.001, some 0.05, 12, "t"⟩ : TickInput)
          (⟨0, 0, none, none, ⟨0.02, 0.03, ()⟩, [], []⟩ : ScriptState Unit))
      ).original_ask_spread = some 0.03 ∧
    (0.02 : ℚ) ≤ (run_ticks [⟨none, none, 4, "u"⟩]
        (on_tick (⟨some 0.001, some 0.05, 12, "t"⟩ : TickInput)
          (⟨0, 0, none, none, ⟨0.02, 0.03, ()⟩, [], []⟩ : ScriptState Unit))
      ).pmm_parameters.bid_spread ∧
    (0.03 : ℚ) ≤ (run_ticks [⟨none, none, 4, "u"⟩]
        (on_tick (⟨some 0.001, some 0.05, 12, "t"⟩ : TickInput)
          (⟨0, 0, none, none, ⟨0.02, 0.03, ()⟩, [], []⟩ : ScriptState Unit))
      ).pmm_parameters.ask_spread :=
  c4_spreads_never_below_originals (⟨some 0.001, some 0.05, 12, "t"⟩ : TickInput)
    [⟨none, none, 4, "u"⟩]
    (⟨0, 0, none, none, ⟨0.02, 0.03, ()⟩, [], []⟩ : ScriptState Unit) rfl

end SpreadsVolatility

namespace SpreadsVolatility

/-- C5 as stated is false on the code: with volatility delta `-0.0025`
during day hours the pre-clamp bid `0.0075` differs from the original
`0.01`, so a line is logged, yet the value written back is the clamped
`max 0.01 0.0075 = 0.01` — the stored bid spread is unchanged while the
log grew by one line. -/
theorem c5_counterexample :
    (on_tick (⟨some 0.01, some 0.0125, 12, "2024-01-01 12:00:00"⟩ : TickInput)
        (⟨0, 0, none, none, ⟨0.01, 0.01, ()⟩, [], []⟩ : ScriptState Unit)
      ).original_bid_spread = some 0.01 ∧
    (on_tick (⟨some 0.01, some 0.0125, 12, "2024-01-01 12:00:00"⟩ : TickInput)
        (⟨0, 0, none, none, ⟨0.01, 0.01, ()⟩, [], []⟩ : ScriptState Unit)
      ).pmm_parameters.bid_spread = 0.01 ∧
    (on_tick (⟨some 0.01, some 0.0125, 12, "2024-01-01 12:00:00"⟩ : TickInput)
        (⟨0, 0, none, none, ⟨0.01, 0.01, ()⟩, [], []⟩ : ScriptState Unit)
      ).log_file.length = 1 := by
  with_unfolding_all decide

/-- C5 amended: on a writing tick, `on_tick` appends exactly one log
line if and only if the *pre-clamp* bid
`original + spread_adjustment + overnight_adjustment` differs from the
original bid, i.e. iff the total adjustment is nonzero; nothing is
appended when the total adjustment is zero.  (The stored, clamped, bid
spread can be unchanged while a line is still appended.) -/
theorem c5_log_iff_total_adjustment_nonzero (inp : TickInput) (s : ScriptState α)
    (avg med ob oa : ℚ)
    (hav : inp.avg_short_volatility = some avg)
    (hmed : inp.median_long_volatility = some med)
    (hob : (captureOriginals s).original_bid_spread = some ob)
    (hoa : (captureOriginals s).original_ask_spread = some oa)
    (hticks : s.ticks + 1 ≠ interval * long_period + 1) :
    ((on_tick inp s).log_file = s.log_file ↔
      round_by_step (avg - med) 0.0025 + overnight_adjustment inp.hour_syd = 0) ∧
    (round_by_step (avg - med) 0.0025 + overnight_adjustment inp.hour_syd ≠ 0 →
      (on_tick inp s).log_file.length = s.log_file.length + 1) := by
  rw [on_tick_write inp s avg med ob oa hav hmed hob hoa hticks]
  by_cases hz : round_by_step (avg - med) 0.0025 + overnight_adjustment inp.hour_syd = 0
  · have hcond : ob + round_by_step (avg - med) 0.0025 +
        overnight_adjustment inp.hour_syd = ob := by linarith
    rw [if_pos hcond]
    exact ⟨by simpa using hz, fun h => absurd hz h⟩
  · have hcond : ¬(ob + round_by_step (avg - med) 0.0025 +
        overnight_adjustment inp.hour_syd = ob) := fun h => hz (by linarith)
    rw [if_neg hcond]
    refine ⟨⟨fun h => ?_, fun h => absurd h hz⟩, fun _ => by simp⟩
    have hlen := congrArg List.length h
    simp at hlen

/-- Closed instance of `c5_log_iff_total_adjustment_nonzero` with a
positive delta: one line is appended. -/
theorem c5_witness :
    (on_tick (⟨some 0.03, some 0.01, 12, "w5"⟩ : TickInput)
        (⟨0, 0, none, none, ⟨0.01, 0.01, ()⟩, [], []⟩ : ScriptState Unit)
      ).log_file.length =
      (([] : List String)).length + 1 := by
  have h := c5_log_iff_total_adjustment_nonzero
    (⟨some 0.03, some 0.01, 12, "w5"⟩ : TickInput)
    (⟨0, 0, none, none, ⟨0.01, 0.01, ()⟩, [], []⟩ : ScriptState Unit)
    0.03 0.01 0.01 0.01 rfl rfl rfl rfl (by decide)
  exact h.2 (by with_unfolding_all decide)

/-- C6: when either volatility query is absent, `on_tick` leaves the
parameter object, the log file and the notifications untouched, still
increments the tick counter, and on the first call records the original
spreads (afterwards the recorded originals are unchanged). -/
theorem c6_absent_vol_frame (inp : TickInput) (s : ScriptState α)
    (h : inp.avg_short_volatility = none ∨ inp.median_long_volatility = none) :
    (on_tick inp s).pmm_parameters = s.pmm_parameters ∧
    (on_tick inp s).log_file = s.log_file ∧
    (on_tick inp s).notifications = s.notifications ∧
    (on_tick inp s).ticks = s.ticks + 1 ∧
    (on_tick inp s).hour_of_day = s.hour_of_day ∧
    (s.original_bid_spread = none →
      (on_tick inp s).original_bid_spread = some s.pmm_parameters.bid_spread ∧
      (on_tick inp s).original_ask_spread = some s.pmm_parameters.ask_spread) ∧
    (s.original_bid_spread ≠ none →
      (on_tick inp s).original_bid_spread = s.original_bid_spread ∧
      (on_tick inp s).original_ask_spread = s.original_ask_spread) := by
  rw [on_tick_absent inp s h]
  refine ⟨captureOriginals_pmm s, captureOriginals_log s,
    captureOriginals_notifications s, rfl, captureOriginals_hour s, ?_, ?_⟩
  · intro h0
    rw [captureOriginals_of_none s h0]
    exact ⟨rfl, rfl⟩
  · intro h0
    rw [captureOriginals_of_some s h0]
    exact ⟨rfl, rfl⟩

/-- Closed instance of `c6_absent_vol_frame` on a mid-run state with the
short average still absent. -/
theorem c6_witness :
    (on_tick (⟨none, some 0.01, 3, "w6"⟩ : TickInput)
        (⟨5, 2, some 0.03, some 0.04, ⟨0.05, 0.06, ()⟩, ["x"], []⟩ : ScriptState Unit)
      ).pmm_parameters = ⟨0.05, 0.06, ()⟩ ∧
    (on_tick (⟨none, some 0.01, 3, "w6"⟩ : TickInput)
        (⟨5, 2, some 0.03, some 0.04, ⟨0.05, 0.06, ()⟩, ["x"], []⟩ : ScriptState Unit)
      ).log_file = ["x"] ∧
    (on_tick (⟨none, some 0.01, 3, "w6"⟩ : TickInput)
        (⟨5, 2, some 0.03, some 0.04, ⟨0.05, 0.06, ()⟩, ["x"], []⟩ : ScriptState Unit)
      ).ticks = 6 ∧
    (on_tick (⟨none, some 0.01, 3, "w6"⟩ : TickInput)
        (⟨5, 2, some 0.03, some 0.04, ⟨0.05, 0.06, ()⟩, ["x"], []⟩ : ScriptState Unit)
      ).original_bid_spread = some 0.03 := by
  have h := c6_absent_vol_frame (⟨none, some 0.01, 3, "w6"⟩ : TickInput)
    (⟨5, 2, some 0.03, some 0.04, ⟨0.05, 0.06, ()⟩, ["x"], []⟩ : ScriptState Unit)
    (Or.inl rfl)
  exact ⟨h.1, h.2.1, h.2.2.2.1, (h.2.2.2.2.2.2 (by simp)).1⟩

end SpreadsVolatility

namespace SpreadsVolatility

/-- C9: on the tick where the incremented counter reaches
`interval * long_period + 1 = 9001` with both volatilities available,
`on_tick` sends the completion notification and returns without touching
the parameter object or the log file, even though statistics are
available. -/
theorem c9_completion_tick_notifies_only (inp : TickInput) (s : ScriptState α)
    (avg med ob oa : ℚ)
    (hav : inp.avg_short_volatility = some avg)
    (hmed : inp.median_long_volatility = some med)
    (hob : (captureOriginals s).original_bid_spread = some ob)
    (hoa : (captureOriginals s).original_ask_spread = some oa)
    (hticks : s.ticks + 1 = interval * long_period + 1) :
    (on_tick inp s).notifications =
      s.notifications ++ ["finished calculating averages : 9001 "] ∧
    (on_tick inp s).pmm_parameters = s.pmm_parameters ∧
    (on_tick inp s).log_file = s.log_file ∧
    (on_tick inp s).ticks = s.ticks + 1 := by
  rw [on_tick_notify inp s avg med ob oa hav hmed hob hoa hticks]
  have hmsg : ("finished calculating averages : " ++ toString (s.ticks + 1) ++ " ")
      = "finished calculating averages : 9001 " := by
    rw [hticks]
    decide
  exact ⟨by rw [show (notify { captureOriginals s with ticks := s.ticks + 1 }
      ("finished calculating averages : " ++ toString (s.ticks + 1) ++ " ")).notifications
      = (captureOriginals s).notifications ++
        ["finished calculating averages : " ++ toString (s.ticks + 1) ++ " "] from rfl,
      hmsg, captureOriginals_notifications],
    captureOriginals_pmm s, captureOriginals_log s, rfl⟩

/-- Closed instance of `c9_completion_tick_notifies_only` at tick 9000
with both statistics present. -/
theorem c9_witness :
    (on_tick (⟨some 0.02, some 0.015, 10, "w9"⟩ : TickInput)
        (⟨9000, 9, some 0.008, some 0.009, ⟨0.008, 0.009, ()⟩, [], []⟩ : ScriptState Unit)
      ).notifications = [] ++ ["finished calculating averages : 9001 "] ∧
    (on_tick (⟨some 0.02, some 0.015, 10, "w9"⟩ : TickInput)
        (⟨9000, 9, some 0.008, some 0.009, ⟨0.008, 0.009, ()⟩, [], []⟩ : ScriptState Unit)
      ).pmm_parameters = ⟨0.008, 0.009, ()⟩ ∧
    (on_tick (⟨some 0.02, some 0.015, 10, "w9"⟩ : TickInput)
        (⟨9000, 9, some 0.008, some 0.009, ⟨0.008, 0.009, ()⟩, [], []⟩ : ScriptState Unit)
      ).log_file = [] := by
  have h := c9_completion_tick_notifies_only
    (⟨some 0.02, some 0.015, 10, "w9"⟩ : TickInput)
    (⟨9000, 9, some 0.008, some 0.009, ⟨0.008, 0.009, ()⟩, [], []⟩ : ScriptState Unit)
    0.02 0.015 0.008 0.009 rfl rfl rfl rfl (by decide)
  exact ⟨h.1, h.2.1, h.2.2.1⟩

/-- C10: on every writing tick the bid and ask spreads move by the same
amount, namely `max 0 (spread_adjustment + overnight_adjustment)`. -/
theorem c10_bid_ask_move_equally (inp : TickInput) (s : ScriptState α)
    (avg med ob oa : ℚ)
    (hav : inp.avg_short_volatility = some avg)
    (hmed : inp.median_long_volatility = some med)
    (hob : (captureOriginals s).original_bid_spread = some ob)
    (hoa : (captureOriginals s).original_ask_spread = some oa)
    (hticks : s.ticks + 1 ≠ interval * long_period + 1) :
    (on_tick inp s).pmm_parameters.bid_spread - ob =
      (on_tick inp s).pmm_parameters.ask_spread - oa ∧
    (on_tick inp s).pmm_parameters.bid_spread - ob =
      max 0 (round_by_step (avg - med) 0.0025 + overnight_adjustment inp.hour_syd) := by
  rw [on_tick_write inp s avg med ob oa hav hmed hob hoa hticks]
  have key : ∀ c x : ℚ, max c (c + x) - c = max 0 x := by
    intro c x
    rcases le_total x 0 with hx | hx
    · rw [max_eq_left (by linarith), max_eq_left hx]
      ring
    · rw [max_eq_right (by linarith), max_eq_right hx]
      ring
  constructor
  · show max ob (ob + round_by_step (avg - med) 0.0025 +
        overnight_adjustment inp.hour_syd) - ob =
      max oa (oa + round_by_step (avg - med) 0.0025 +
        overnight_adjustment inp.hour_syd) - oa
    rw [add_assoc, add_assoc, key ob _, key oa _]
  · show max ob (ob + round_by_step (avg - med) 0.0025 +
        overnight_adjustment inp.hour_syd) - ob =
      max 0 (round_by_step (avg - med) 0.0025 + overnight_adjustment inp.hour_syd)
    rw [add_assoc, key ob _]

end SpreadsVolatility

namespace SpreadsVolatility

/-- Closed instance of `c10_bid_ask_move_equally` on a night-hour tick
with a positive delta. -/
theorem c10_witness :
    (on_tick (⟨some 0.03, some 0.01, 23, "wA"⟩ : TickInput)
        (⟨0, 0, none, none, ⟨0.01, 0.02, ()⟩, [], []⟩ : ScriptState Unit)
      ).pmm_parameters.bid_spread - 0.01 =
      (on_tick (⟨some 0.03, some 0.01, 23, "wA"⟩ : TickInput)
        (⟨0, 0, none, none, ⟨0.01, 0.02, ()⟩, [], []⟩ : ScriptState Unit)
      ).pmm_parameters.ask_spread - 0.02 ∧
    (on_tick (⟨some 0.03, some 0.01, 23, "wA"⟩ : TickInput)
        (⟨0, 0, none, none, ⟨0.01, 0.02, ()⟩, [], []⟩ : ScriptState Unit)
      ).pmm_parameters.bid_spread - 0.01 =
      max 0 (round_by_step ((0.03 : ℚ) - 0.01) 0.0025 + overnight_adjustment 23) :=
  c10_bid_ask_move_equally (⟨some 0.03, some 0.01, 23, "wA"⟩ : TickInput)
    (⟨0, 0, none, none, ⟨0.01, 0.02, ()⟩, [], []⟩ : ScriptState Unit)
    0.03 0.01 0.01 0.02 rfl rfl rfl rfl (by decide)

end SpreadsVolatility
